import Mathlib

/-!
Verification of the FFI bridge in
`src/risc0/circuit/rv32im-sys/cxx/ffi.cpp`.

The file shallowly embeds the bridge: field elements are concrete
structures, C++ exceptions become `Except String`, the external
lower-core step functions become interaction programs (`LowerProg`)
that may return, fail, or call back into the host, and the C strings
owned by `risc0_string` handles become Lean strings.
-/

namespace Risc0FFI

/-- Base field element (`Fp` from `fp.h`).  The bridge never interprets
its bits; it only moves the raw 32-bit representation around, so we
model it as its raw word. -/
structure Fp where
  val : Nat
  deriving DecidableEq, Repr

/-- The raw scalar representation of a field element, as produced by
`Fp::asRaw()` and returned across the C boundary as a `uint32_t`. -/
def Fp.asRaw (x : Fp) : Nat :=
  x.val % 2 ^ 32

/-- Extension field element (`FpExt` from `fpext.h`): four base-field
coefficients, passed by value across the boundary. -/
structure FpExt where
  e0 : Fp
  e1 : Fp
  e2 : Fp
  e3 : Fp
  deriving DecidableEq, Repr

/-- The default-constructed `FpExt()`: all coefficients zero. -/
def FpExt.defaultCtor : FpExt :=
  ⟨⟨0⟩, ⟨0⟩, ⟨0⟩, ⟨0⟩⟩

/-- `FpExt::operator*` as defined at `ffi.cpp:128-142`: the body is
`return FpExt();` and the genuine degree-4 polynomial multiplication
is commented out, so the product is the default-constructed value
regardless of the operands. -/
def FpExt.mul (_a _b : FpExt) : FpExt :=
  FpExt.defaultCtor

/-- The heap-owned string handle (`risc0_string`): it owns a
`std::string str`, read through `str.c_str()` by the accessor. -/
structure risc0_string where
  str : String
  deriving DecidableEq, Repr

/-- Modelled from the spec: the caller-owned error slot (`risc0_error`,
declared in `ffi.h`, which is not part of the visible sources).  On
success it is left untouched; on failure the Boundary Wrapper stores a
handle to a diagnostic string in it.  `none` is the untouched/null
state. -/
structure risc0_error where
  msg : Option risc0_string
  deriving DecidableEq, Repr

/-- `risc0_circuit_string_ptr` (`ffi.cpp:24-26`): returns the
null-terminated view `str->str.c_str()` of the handle's owned buffer;
in the embedding the view is the owned string itself. -/
def risc0_circuit_string_ptr (str : risc0_string) : String :=
  str.str

/-- Heap of live `risc0_string` allocations, keyed by address.  Used to
model `delete` in `risc0_circuit_string_free`. -/
abbrev StrHeap := List (Nat × String)

/-- `risc0_circuit_string_free` (`ffi.cpp:28-30`): `delete str`.
`delete` on a null pointer is a no-op; on a non-null pointer it
releases that allocation.  The `Except` result records whether a fault
is raised (it never is). -/
def risc0_circuit_string_free (heap : StrHeap) (str : Option Nat) :
    Except String StrHeap :=
  match str with
  | none => Except.ok heap
  | some p => Except.ok (heap.filter (fun kv => kv.1 ≠ p))

/-- The host callback (`Callback` from `ffi.h`): given the event name,
auxiliary text, the input buffer and the requested output length, it
returns a success flag (the C `bool` result) together with the
contents it wrote into the output buffer.  The opaque host context
pointer is captured inside the Lean function value. -/
def HostCallback : Type :=
  String → String → List Fp → Nat → Bool × List Fp

/-- The callback shape the lower core expects: an effectful call that
either yields the output buffer or raises a structured failure. -/
def CoreCallback : Type :=
  String → String → List Fp → Nat → Except String (List Fp)

/-- `bridgeCallback` (`ffi.cpp:37-48`): unwraps the `BridgeContext`
pairing (host context, host function pointer), invokes the host
callback, and throws `std::runtime_error("Host callback failure")`
when the host returns a falsy indicator. -/
def bridgeCallback (callback : HostCallback) : CoreCallback :=
  fun name extra args outs_len =>
    match callback name extra args outs_len with
    | (true, outs) => Except.ok outs
    | (false, _) => Except.error "Host callback failure"

/-- Modelled from the spec: the externally-implemented lower-core step
functions (`circuit::rv32im::step_*`, not under the visible sources)
are "an external collaborator reachable only through the declared
entry points".  A run of one is an interaction program: it returns a
value, raises a structured fault with a diagnostic, or invokes the
callback (with a name, auxiliary text, input buffer and output
length) and continues with the outputs the callback produced. -/
inductive LowerProg (α : Type) where
  | ret (a : α)
  | fail (msg : String)
  | callOut (name extra : String) (args : List Fp) (outs_len : Nat)
      (k : List Fp → LowerProg α)

/-- Executes a lower-core interaction program against a callback:
callback invocations occur in order on the one call stack, a fault
raised by the callback propagates out of the program, and a `fail`
node raises the lower core's own fault. -/
def runStep {α : Type} : LowerProg α → CoreCallback → Except String α
  | LowerProg.ret a, _ => Except.ok a
  | LowerProg.fail m, _ => Except.error m
  | LowerProg.callOut name extra args outs_len k, cb =>
    match cb name extra args outs_len with
    | Except.ok outs => runStep (k outs) cb
    | Except.error m => Except.error m

/-- A lower-core step function: given `steps`, `cycle` and the
argument-buffer array, it produces the interaction program for that
invocation. -/
def StepFn : Type :=
  Nat → Nat → List (List Fp) → LowerProg Fp

/-- Modelled from the spec: `ffi_wrap` (declared in `ffi.h`, not part
of the visible sources), the Boundary Wrapper.  It runs the wrapped
unit of work; on normal completion it returns the result unmodified
with the error slot untouched; on any fault it catches it, stores a
handle to the diagnostic in the error slot, and returns the supplied
default.  The outer `Except` is the foreign boundary itself: an
`Except.error` there would be an exception escaping to the foreign
caller, which `ffi_wrap` never produces. -/
def ffi_wrap {α : Type} (err : risc0_error) (default : α)
    (work : Except String α) : Except String (α × risc0_error) :=
  match work with
  | Except.ok v => Except.ok (v, err)
  | Except.error m => Except.ok (default, ⟨some ⟨m⟩⟩)

/-- `risc0_circuit_rv32im_step_compute_accum` (`ffi.cpp:50-62`): wraps
`step_compute_accum(..).asRaw()` in `ffi_wrap` with default `0`; the
trailing `args_len` parameter is unnamed and unused in the source. -/
def risc0_circuit_rv32im_step_compute_accum (step_compute_accum : StepFn)
    (err : risc0_error) (callback : HostCallback) (steps cycle : Nat)
    (args_ptr : List (List Fp)) (_args_len : Nat) :
    Except String (Nat × risc0_error) :=
  ffi_wrap err 0
    ((runStep (step_compute_accum steps cycle args_ptr)
        (bridgeCallback callback)).map Fp.asRaw)

/-- `risc0_circuit_rv32im_step_verify_accum` (`ffi.cpp:64-76`). -/
def risc0_circuit_rv32im_step_verify_accum (step_verify_accum : StepFn)
    (err : risc0_error) (callback : HostCallback) (steps cycle : Nat)
    (args_ptr : List (List Fp)) (_args_len : Nat) :
    Except String (Nat × risc0_error) :=
  ffi_wrap err 0
    ((runStep (step_verify_accum steps cycle args_ptr)
        (bridgeCallback callback)).map Fp.asRaw)

/-- `risc0_circuit_rv32im_step_exec` (`ffi.cpp:78-89`). -/
def risc0_circuit_rv32im_step_exec (step_exec : StepFn)
    (err : risc0_error) (callback : HostCallback) (steps cycle : Nat)
    (args_ptr : List (List Fp)) (_args_len : Nat) :
    Except String (Nat × risc0_error) :=
  ffi_wrap err 0
    ((runStep (step_exec steps cycle args_ptr)
        (bridgeCallback callback)).map Fp.asRaw)

/-- `risc0_circuit_rv32im_step_verify_bytes` (`ffi.cpp:91-103`). -/
def risc0_circuit_rv32im_step_verify_bytes (step_verify_bytes : StepFn)
    (err : risc0_error) (callback : HostCallback) (steps cycle : Nat)
    (args_ptr : List (List Fp)) (_args_len : Nat) :
    Except String (Nat × risc0_error) :=
  ffi_wrap err 0
    ((runStep (step_verify_bytes steps cycle args_ptr)
        (bridgeCallback callback)).map Fp.asRaw)

/-- `risc0_circuit_rv32im_step_verify_mem` (`ffi.cpp:105-117`). -/
def risc0_circuit_rv32im_step_verify_mem (step_verify_mem : StepFn)
    (err : risc0_error) (callback : HostCallback) (steps cycle : Nat)
    (args_ptr : List (List Fp)) (_args_len : Nat) :
    Except String (Nat × risc0_error) :=
  ffi_wrap err 0
    ((runStep (step_verify_mem steps cycle args_ptr)
        (bridgeCallback callback)).map Fp.asRaw)

/-- C-level parameter and return types, used to state claims about the
declared signature of an entry point. -/
inductive CType where
  | size_t
  | uint32_t
  | fp
  | fpext
  | ptr (t : CType)
  deriving DecidableEq, Repr

/-- The parameter list of `risc0_circuit_rv32im_poly_fp` as declared at
`ffi.cpp:123-124`: `(size_t cycle, size_t steps, FpExt* poly_mix,
Fp** args)`. -/
def polyFpParams : List CType :=
  [CType.size_t, CType.size_t, CType.ptr CType.fpext,
    CType.ptr (CType.ptr CType.fp)]

/-- The return type of `risc0_circuit_rv32im_poly_fp`: `FpExt`, by
value (`ffi.cpp:123`). -/
def polyFpRet : CType :=
  CType.fpext

/-- The parameter list the spec claims for the polynomial-evaluation
entry point: `(cycle, steps, poly_mix: ExtensionFieldElement,
args_ptr_array)` with `poly_mix` "passed by value across the
boundary".  Stated from the spec's words, to be compared with
`polyFpParams` read off the source. -/
def polyFpParamsSpec : List CType :=
  [CType.size_t, CType.size_t, CType.fpext,
    CType.ptr (CType.ptr CType.fp)]

/-- The external lower-core `circuit::rv32im::poly_fp`: a total
function of `cycle`, `steps`, the mixing value behind `poly_mix`, and
the argument buffers (the interface has no callback and no failure
channel). -/
def PolyFpFn : Type :=
  Nat → Nat → FpExt → List (List Fp) → FpExt

/-- `risc0_circuit_rv32im_poly_fp` (`ffi.cpp:123-126`): forwards its
arguments directly to the lower core's `poly_fp` and returns its
result; no callback, no error slot, no catch scope. -/
def risc0_circuit_rv32im_poly_fp (poly_fp : PolyFpFn)
    (cycle steps : Nat) (poly_mix : FpExt) (args : List (List Fp)) :
    FpExt :=
  poly_fp cycle steps poly_mix args

/-- The execution of a program against a callback reaches at least one
callback invocation on which the callback returns the falsy refusal
indicator. -/
inductive RefusalOccurs : LowerProg Fp → HostCallback → Prop where
  | here {name extra : String} {args : List Fp} {outs_len : Nat}
      {k : List Fp → LowerProg Fp} {cb : HostCallback}
      (hrefuse : (cb name extra args outs_len).1 = false) :
      RefusalOccurs (LowerProg.callOut name extra args outs_len k) cb
  | later {name extra : String} {args : List Fp} {outs_len : Nat}
      {k : List Fp → LowerProg Fp} {cb : HostCallback}
      (hok : (cb name extra args outs_len).1 = true)
      (hrest : RefusalOccurs (k (cb name extra args outs_len).2) cb) :
      RefusalOccurs (LowerProg.callOut name extra args outs_len k) cb


/-- Empty (untouched/null) error slot, used as a concrete test input. -/
def err0 : risc0_error :=
  ⟨none⟩

/-- A host callback that always succeeds, filling the output buffer
with zeros. -/
def okCb : HostCallback :=
  fun _ _ _ outs_len => (true, List.replicate outs_len ⟨0⟩)

/-- A host callback that always returns the falsy refusal indicator. -/
def refuseCb : HostCallback :=
  fun _ _ _ _ => (false, [])

/-- A lower-core step run that completes normally with the value 7. -/
def retStep7 : StepFn :=
  fun _ _ _ => LowerProg.ret ⟨7⟩

/-- A lower-core step run that completes normally with the value 5. -/
def retStep5 : StepFn :=
  fun _ _ _ => LowerProg.ret ⟨5⟩

/-- A lower-core step run that raises an internal structured fault. -/
def failStepFault : StepFn :=
  fun _ _ _ => LowerProg.fail "circuit fault"

/-- A lower-core step run that invokes the callback once and then
completes normally. -/
def callStep : StepFn :=
  fun _ _ _ => LowerProg.callOut "plonk" "" [] 4 (fun _ => LowerProg.ret ⟨7⟩)

lemma bridgeCallback_of_true {cb : HostCallback} {name extra : String}
    {args : List Fp} {outs_len : Nat}
    (h : (cb name extra args outs_len).1 = true) :
    bridgeCallback cb name extra args outs_len =
      Except.ok (cb name extra args outs_len).2 := by
  unfold bridgeCallback
  rcases hcb : cb name extra args outs_len with ⟨b, outs⟩
  rw [hcb] at h
  simp only at h
  subst h
  rfl

lemma bridgeCallback_of_false {cb : HostCallback} {name extra : String}
    {args : List Fp} {outs_len : Nat}
    (h : (cb name extra args outs_len).1 = false) :
    bridgeCallback cb name extra args outs_len =
      Except.error "Host callback failure" := by
  unfold bridgeCallback
  rcases hcb : cb name extra args outs_len with ⟨b, outs⟩
  rw [hcb] at h
  simp only at h
  subst h
  rfl

lemma runStep_of_refusal {p : LowerProg Fp} {cb : HostCallback}
    (h : RefusalOccurs p cb) :
    runStep p (bridgeCallback cb) = Except.error "Host callback failure" := by
  induction h with
  | here hrefuse =>
    unfold runStep
    rw [bridgeCallback_of_false hrefuse]
  | later hok hrest ih =>
    unfold runStep
    rw [bridgeCallback_of_true hok]
    exact ih

lemma ffi_wrap_ok {α : Type} (err : risc0_error) (d : α)
    (work : Except String α) :
    ∃ r, ffi_wrap err d work = Except.ok r := by
  cases work with
  | ok v => exact ⟨(v, err), rfl⟩
  | error m => exact ⟨(d, ⟨some ⟨m⟩⟩), rfl⟩

/-- Claim C1: for every step entry point call, with any lower-core
behavior and any host callback — including runs in which the callback
refuses and the trampoline rethrows that failure — the enclosing
`ffi_wrap` at the outermost frame catches every fault, so the entry
point always returns a value to the foreign caller (`Except.ok`) and
no exception ever crosses the extern-C boundary. -/
theorem step_entry_no_fault_escapes :
    ∀ (sf : StepFn) (err : risc0_error) (cb : HostCallback)
      (steps cycle : Nat) (args : List (List Fp)) (alen : Nat),
      (∃ r, risc0_circuit_rv32im_step_compute_accum sf err cb steps cycle
          args alen = Except.ok r) ∧
      (∃ r, risc0_circuit_rv32im_step_verify_accum sf err cb steps cycle
          args alen = Except.ok r) ∧
      (∃ r, risc0_circuit_rv32im_step_exec sf err cb steps cycle
          args alen = Except.ok r) ∧
      (∃ r, risc0_circuit_rv32im_step_verify_bytes sf err cb steps cycle
          args alen = Except.ok r) ∧
      (∃ r, risc0_circuit_rv32im_step_verify_mem sf err cb steps cycle
          args alen = Except.ok r) := by
  intro sf err cb steps cycle args alen
  exact ⟨ffi_wrap_ok _ _ _, ffi_wrap_ok _ _ _, ffi_wrap_ok _ _ _,
    ffi_wrap_ok _ _ _, ffi_wrap_ok _ _ _⟩

/-- Claim C2: whenever the lower-core step function completes normally
with value `x`, every step entry point returns exactly `x.asRaw`
and the caller-supplied error slot is returned untouched. -/
theorem step_entry_normal_result :
    ∀ (sf : StepFn) (err : risc0_error) (cb : HostCallback)
      (steps cycle : Nat) (args : List (List Fp)) (alen : Nat) (x : Fp),
      runStep (sf steps cycle args) (bridgeCallback cb) = Except.ok x →
      risc0_circuit_rv32im_step_compute_accum sf err cb steps cycle args
        alen = Except.ok (x.asRaw, err) ∧
      risc0_circuit_rv32im_step_verify_accum sf err cb steps cycle args
        alen = Except.ok (x.asRaw, err) ∧
      risc0_circuit_rv32im_step_exec sf err cb steps cycle args
        alen = Except.ok (x.asRaw, err) ∧
      risc0_circuit_rv32im_step_verify_bytes sf err cb steps cycle args
        alen = Except.ok (x.asRaw, err) ∧
      risc0_circuit_rv32im_step_verify_mem sf err cb steps cycle args
        alen = Except.ok (x.asRaw, err) := by
  intro sf err cb steps cycle args alen x h
  refine ⟨?_, ?_, ?_, ?_, ?_⟩ <;>
    simp [risc0_circuit_rv32im_step_compute_accum,
      risc0_circuit_rv32im_step_verify_accum,
      risc0_circuit_rv32im_step_exec,
      risc0_circuit_rv32im_step_verify_bytes,
      risc0_circuit_rv32im_step_verify_mem, ffi_wrap, h, Except.map]

/-- Witness for C2 at a concrete input: a step run returning 7 with an
always-succeeding callback. -/
theorem step_entry_normal_result_witness :
    risc0_circuit_rv32im_step_compute_accum retStep7 err0 okCb 16 0 [] 0 =
      Except.ok (Fp.asRaw ⟨7⟩, err0) :=
  (step_entry_normal_result retStep7 err0 okCb 16 0 [] 0 ⟨7⟩ rfl).1

/-- Claim C3: if during a step entry point call the host callback
returns the falsy refusal indicator at some invocation, the callback
trampoline raises a structured failure carrying exactly the text
"Host callback failure", and every step entry point then returns its
declared default value 0 with the error slot populated with that same
fixed text. -/
theorem callback_refusal_default_and_message :
    ∀ (sf : StepFn) (err : risc0_error) (cb : HostCallback)
      (steps cycle : Nat) (args : List (List Fp)) (alen : Nat),
      RefusalOccurs (sf steps cycle args) cb →
      runStep (sf steps cycle args) (bridgeCallback cb) =
        Except.error "Host callback failure" ∧
      risc0_circuit_rv32im_step_compute_accum sf err cb steps cycle args
        alen = Except.ok (0, ⟨some ⟨"Host callback failure"⟩⟩) ∧
      risc0_circuit_rv32im_step_verify_accum sf err cb steps cycle args
        alen = Except.ok (0, ⟨some ⟨"Host callback failure"⟩⟩) ∧
      risc0_circuit_rv32im_step_exec sf err cb steps cycle args
        alen = Except.ok (0, ⟨some ⟨"Host callback failure"⟩⟩) ∧
      risc0_circuit_rv32im_step_verify_bytes sf err cb steps cycle args
        alen = Except.ok (0, ⟨some ⟨"Host callback failure"⟩⟩) ∧
      risc0_circuit_rv32im_step_verify_mem sf err cb steps cycle args
        alen = Except.ok (0, ⟨some ⟨"Host callback failure"⟩⟩) := by
  intro sf err cb steps cycle args alen h
  have hrun := runStep_of_refusal h
  refine ⟨hrun, ?_, ?_, ?_, ?_, ?_⟩ <;>
    simp [risc0_circuit_rv32im_step_compute_accum,
      risc0_circuit_rv32im_step_verify_accum,
      risc0_circuit_rv32im_step_exec,
      risc0_circuit_rv32im_step_verify_bytes,
      risc0_circuit_rv32im_step_verify_mem, ffi_wrap, hrun, Except.map]

/-- Witness for C3 at a concrete input: one callback invocation that
the host refuses. -/
theorem callback_refusal_default_and_message_witness :
    risc0_circuit_rv32im_step_exec callStep err0 refuseCb 16 0 [] 0 =
      Except.ok (0, ⟨some ⟨"Host callback failure"⟩⟩) :=
  (callback_refusal_default_and_message callStep err0 refuseCb 16 0 [] 0
    (RefusalOccurs.here rfl)).2.2.2.1

/-- Claim C4: whenever the wrapped lower-core run raises a structured
fault with diagnostic `m`, every step entry point stores `m` unchanged
in the error slot and returns the caller-supplied default 0. -/
theorem lower_core_fault_to_error_slot :
    ∀ (sf : StepFn) (err : risc0_error) (cb : HostCallback)
      (steps cycle : Nat) (args : List (List Fp)) (alen : Nat)
      (m : String),
      runStep (sf steps cycle args) (bridgeCallback cb) = Except.error m →
      risc0_circuit_rv32im_step_compute_accum sf err cb steps cycle args
        alen = Except.ok (0, ⟨some ⟨m⟩⟩) ∧
      risc0_circuit_rv32im_step_verify_accum sf err cb steps cycle args
        alen = Except.ok (0, ⟨some ⟨m⟩⟩) ∧
      risc0_circuit_rv32im_step_exec sf err cb steps cycle args
        alen = Except.ok (0, ⟨some ⟨m⟩⟩) ∧
      risc0_circuit_rv32im_step_verify_bytes sf err cb steps cycle args
        alen = Except.ok (0, ⟨some ⟨m⟩⟩) ∧
      risc0_circuit_rv32im_step_verify_mem sf err cb steps cycle args
        alen = Except.ok (0, ⟨some ⟨m⟩⟩) := by
  intro sf err cb steps cycle args alen m h
  refine ⟨?_, ?_, ?_, ?_, ?_⟩ <;>
    simp [risc0_circuit_rv32im_step_compute_accum,
      risc0_circuit_rv32im_step_verify_accum,
      risc0_circuit_rv32im_step_exec,
      risc0_circuit_rv32im_step_verify_bytes,
      risc0_circuit_rv32im_step_verify_mem, ffi_wrap, h, Except.map]

/-- Witness for C4 at a concrete input: a lower-core run that raises
an internal fault. -/
theorem lower_core_fault_to_error_slot_witness :
    risc0_circuit_rv32im_step_verify_mem failStepFault err0 okCb 8 3 [] 2 =
      Except.ok (0, ⟨some ⟨"circuit fault"⟩⟩) :=
  (lower_core_fault_to_error_slot failStepFault err0 okCb 8 3 [] 2
    "circuit fault" rfl).2.2.2.2

/-- Counterexample for C5: the declared third parameter of
`risc0_circuit_rv32im_poly_fp` is `FpExt* poly_mix` (a pointer), not
an extension-field element passed by value as the claim states. -/
theorem poly_mix_by_value_counterexample :
    polyFpParams ≠ polyFpParamsSpec ∧
    polyFpParams[2]? = some (CType.ptr CType.fpext) ∧
    polyFpParamsSpec[2]? = some CType.fpext := by
  decide

/-- Claim C5 (amended): the polynomial-evaluation entry point takes
`(cycle, steps, poly_mix, args)` with `poly_mix` passed by pointer,
calls directly into the lower core with no callback and no error
slot, and totally returns the lower core's extension-field result by
value. -/
theorem poly_fp_entry_direct :
    ∀ (pf : PolyFpFn) (cycle steps : Nat) (pm : FpExt)
      (args : List (List Fp)),
      risc0_circuit_rv32im_poly_fp pf cycle steps pm args =
        pf cycle steps pm args ∧
      polyFpParams = [CType.size_t, CType.size_t, CType.ptr CType.fpext,
        CType.ptr (CType.ptr CType.fp)] ∧
      polyFpRet = CType.fpext :=
  fun _ _ _ _ _ => ⟨rfl, rfl, rfl⟩

/-- Claim C6: for any diagnostic-producing failure of a wrapped step
run, the error slot holds a non-null string handle, and the accessor
applied to that handle returns exactly the diagnostic text stored at
failure time. -/
theorem string_handle_roundtrip :
    ∀ (sf : StepFn) (err : risc0_error) (cb : HostCallback)
      (steps cycle : Nat) (args : List (List Fp)) (alen : Nat)
      (m : String),
      runStep (sf steps cycle args) (bridgeCallback cb) = Except.error m →
      ∃ s : risc0_string,
        risc0_circuit_rv32im_step_exec sf err cb steps cycle args alen =
          Except.ok (0, ⟨some s⟩) ∧
        risc0_circuit_string_ptr s = m := by
  intro sf err cb steps cycle args alen m h
  refine ⟨⟨m⟩, ?_, rfl⟩
  simp [risc0_circuit_rv32im_step_exec, ffi_wrap, h, Except.map]

/-- Witness for C6 at a concrete input. -/
theorem string_handle_roundtrip_witness :
    ∃ s : risc0_string,
      risc0_circuit_rv32im_step_exec failStepFault err0 refuseCb 4 1 [] 0 =
        Except.ok (0, ⟨some s⟩) ∧
      risc0_circuit_string_ptr s = "circuit fault" :=
  string_handle_roundtrip failStepFault err0 refuseCb 4 1 [] 0
    "circuit fault" rfl

/-- Claim C7: the string-handle destructor on a null handle is a no-op
raising no fault; on a non-null handle it releases exactly that
handle's owned storage (it is gone from the heap afterwards, all
other allocations untouched) and raises no fault. -/
theorem string_free_null_noop_and_release :
    ∀ (heap : StrHeap) (p : Nat),
      risc0_circuit_string_free heap none = Except.ok heap ∧
      ∃ heap2,
        risc0_circuit_string_free heap (some p) = Except.ok heap2 ∧
        ∀ q s, (q, s) ∈ heap2 ↔ ((q, s) ∈ heap ∧ q ≠ p) := by
  intro heap p
  refine ⟨rfl, heap.filter (fun kv => kv.1 ≠ p), rfl, ?_⟩
  intro q s
  simp [List.mem_filter]

/-- Counterexample for C8: with an always-succeeding callback but a
lower-core run that raises an internal fault, the two identical calls
do return identical values, yet the error slot does not stay
untouched: it is populated with the fault's diagnostic. -/
theorem idempotence_error_slot_counterexample :
    risc0_circuit_rv32im_step_exec failStepFault err0 okCb 16 0 [] 0 =
      Except.ok (0, ⟨some ⟨"circuit fault"⟩⟩) ∧
    (⟨some ⟨"circuit fault"⟩⟩ : risc0_error) ≠ err0 := by
  exact ⟨rfl, by decide⟩

/-- Claim C8 (amended): calling any step entry point twice with
identical inputs yields identical results on both calls (the bridge
keeps no state between calls), and when the wrapped lower-core run
completes normally the error slot is additionally left untouched both
times. -/
theorem step_entry_repeat_deterministic :
    ∀ (sf : StepFn) (err : risc0_error) (cb : HostCallback)
      (steps cycle : Nat) (args : List (List Fp)) (alen : Nat),
      (risc0_circuit_rv32im_step_compute_accum sf err cb steps cycle args
          alen =
        risc0_circuit_rv32im_step_compute_accum sf err cb steps cycle args
          alen ∧
       risc0_circuit_rv32im_step_verify_accum sf err cb steps cycle args
          alen =
        risc0_circuit_rv32im_step_verify_accum sf err cb steps cycle args
          alen ∧
       risc0_circuit_rv32im_step_exec sf err cb steps cycle args alen =
        risc0_circuit_rv32im_step_exec sf err cb steps cycle args alen ∧
       risc0_circuit_rv32im_step_verify_bytes sf err cb steps cycle args
          alen =
        risc0_circuit_rv32im_step_verify_bytes sf err cb steps cycle args
          alen ∧
       risc0_circuit_rv32im_step_verify_mem sf err cb steps cycle args
          alen =
        risc0_circuit_rv32im_step_verify_mem sf err cb steps cycle args
          alen) ∧
      (∀ x : Fp,
        runStep (sf steps cycle args) (bridgeCallback cb) = Except.ok x →
        (∃ v, risc0_circuit_rv32im_step_compute_accum sf err cb steps cycle
            args alen = Except.ok (v, err)) ∧
        (∃ v, risc0_circuit_rv32im_step_verify_accum sf err cb steps cycle
            args alen = Except.ok (v, err)) ∧
        (∃ v, risc0_circuit_rv32im_step_exec sf err cb steps cycle
            args alen = Except.ok (v, err)) ∧
        (∃ v, risc0_circuit_rv32im_step_verify_bytes sf err cb steps cycle
            args alen = Except.ok (v, err)) ∧
        (∃ v, risc0_circuit_rv32im_step_verify_mem sf err cb steps cycle
            args alen = Except.ok (v, err))) := by
  intro sf err cb steps cycle args alen
  refine ⟨⟨rfl, rfl, rfl, rfl, rfl⟩, ?_⟩
  intro x h
  refine ⟨⟨x.asRaw, ?_⟩, ⟨x.asRaw, ?_⟩, ⟨x.asRaw, ?_⟩, ⟨x.asRaw, ?_⟩,
    ⟨x.asRaw, ?_⟩⟩ <;>
    simp [risc0_circuit_rv32im_step_compute_accum,
      risc0_circuit_rv32im_step_verify_accum,
      risc0_circuit_rv32im_step_exec,
      risc0_circuit_rv32im_step_verify_bytes,
      risc0_circuit_rv32im_step_verify_mem, ffi_wrap, h, Except.map]

/-- Witness for C8 (amended) at a concrete input: a run that completes
normally with value 5 leaves the error slot untouched. -/
theorem step_entry_repeat_deterministic_witness :
    ∃ v, risc0_circuit_rv32im_step_exec retStep5 err0 okCb 8 2 [] 1 =
      Except.ok (v, err0) :=
  ((step_entry_repeat_deterministic retStep5 err0 okCb 8 2 [] 1).2
    ⟨5⟩ rfl).2.2.1

/-- Claim C9: the FpExt multiplication operator defined at the bottom
of `ffi.cpp` ignores both operands: it always returns the
default-constructed FpExt, so it is a constant function of its
operands. -/
theorem fpext_mul_constant_default :
    ∀ a b c d : FpExt,
      FpExt.mul a b = FpExt.defaultCtor ∧ FpExt.mul a b = FpExt.mul c d :=
  fun _ _ _ _ => ⟨rfl, rfl⟩

/-- Claim C10: every step entry point ignores its trailing `args_len`
parameter: two invocations differing only in `args_len` return the
same value and have the same effect on the error slot. -/
theorem args_len_ignored :
    ∀ (sf : StepFn) (err : risc0_error) (cb : HostCallback)
      (steps cycle : Nat) (args : List (List Fp)) (len1 len2 : Nat),
      risc0_circuit_rv32im_step_compute_accum sf err cb steps cycle args
        len1 =
        risc0_circuit_rv32im_step_compute_accum sf err cb steps cycle args
          len2 ∧
      risc0_circuit_rv32im_step_verify_accum sf err cb steps cycle args
        len1 =
        risc0_circuit_rv32im_step_verify_accum sf err cb steps cycle args
          len2 ∧
      risc0_circuit_rv32im_step_exec sf err cb steps cycle args len1 =
        risc0_circuit_rv32im_step_exec sf err cb steps cycle args len2 ∧
      risc0_circuit_rv32im_step_verify_bytes sf err cb steps cycle args
        len1 =
        risc0_circuit_rv32im_step_verify_bytes sf err cb steps cycle args
          len2 ∧
      risc0_circuit_rv32im_step_verify_mem sf err cb steps cycle args
        len1 =
        risc0_circuit_rv32im_step_verify_mem sf err cb steps cycle args
          len2 :=
  fun _ _ _ _ _ _ _ _ => ⟨rfl, rfl, rfl, rfl, rfl⟩


end Risc0FFI
